import Mathlib

/-!
Verification development for the vwserver repository (worker-lifecycle and
protocol-broker subsystem).  The Python source `vwserver/vwserver.py` is
shallowly embedded: pure fragments become Lean functions, stateful fragments
become explicit state passing, network and filesystem effects become explicit
parameters (chunk streams, directory lists, connection outcomes).
-/

/-- Python scalar values that appear in option dictionaries.  The source
checks `isinstance(v, bool)` before anything else (Python's `bool` is a
subclass of `int`), so booleans, strings and other scalars are disjoint
cases, which the sum type mirrors. -/
inductive PyVal where
  | bool (b : Bool)
  | str (s : String)
  | int (n : Int)
deriving DecidableEq, Repr

/-- The module-level `VWOPTIONS` dictionary: allowed option keys with their
default values.  Dictionaries are modelled as association lists in insertion
order. -/
def VWOPTIONS : List (String × PyVal) :=
  [("passes", .int 3),
   ("bit_precision", .int 27),
   ("active_learning", .bool false),
   ("active_mellowness", .int 8)]

/-! ## ReadinessPoller: `sleep_until`

Time is measured in tenths of a second so that the schedule
`(.1, .2, .4, .8, 1.6, 3.2, 6.4, 12.8)` and the timeout are exact naturals.
The predicate `fn` is modelled as a function of the evaluation index, since
each call of the Python callable may observe a different external state. -/

/-- The fixed backoff schedule of `sleep_until`, in tenths of a second. -/
def backoffSchedule : List Nat := [1, 2, 4, 8, 16, 32, 64, 128]

/-- Result of a `sleep_until` run: the sleeps actually performed (in order,
tenths of a second), the number of predicate evaluations, and the returned
boolean. -/
structure SleepRun where
  sleeps : List Nat
  evals : Nat
  result : Bool
deriving DecidableEq, Repr

/-- The `for t in (...)` loop body of `sleep_until`: evaluate `fn`, sleep `t`
if it was false, add `t` to the elapsed accumulator, and break once the
accumulator exceeds the timeout.  Returns the performed sleeps and the number
of predicate evaluations made by the loop. -/
def sleep_until_loop (fn : Nat → Bool) (timeout : Nat) :
    List Nat → Nat → Nat → (List Nat × Nat)
  | [], e, _ => ([], e)
  | t :: rest, e, acc =>
    if timeout < acc + t then
      (if fn e then [] else [t], e + 1)
    else
      let r := sleep_until_loop fn timeout rest (e + 1) (acc + t)
      (if fn e then r.1 else t :: r.1, r.2)

/-- `sleep_until(fn, timeout)`: run the backoff loop, then always evaluate
`fn` one final time and return that result. -/
def sleep_until (fn : Nat → Bool) (timeout : Nat) : SleepRun :=
  let r := sleep_until_loop fn timeout backoffSchedule 0 0
  { sleeps := r.1, evals := r.2 + 1, result := fn r.2 }

/-- Number of loop iterations `sleep_until` executes for a given timeout:
the loop breaks right after the first scheduled duration that pushes the
accumulated elapsed time past the timeout. -/
def sleepCutoff (timeout : Nat) : List Nat → Nat → Nat
  | [], _ => 0
  | t :: rest, acc =>
    if timeout < acc + t then 1 else sleepCutoff timeout rest (acc + t) + 1

/-! ## ProtocolSocket: `VWSocket`

Strings stay Lean `String`s, but all splitting helpers are written by
structural recursion over `String.toList` so that every definition reduces
inside the kernel.  The socket's receive stream is a list of chunks; `none`
marks a `socket.error` raised by that `recv` call. -/

/-- Split a character list on newline characters; like Python's
`s.split(chr(10))`, the result always has one more part than there are
newlines (so the empty string splits to one empty part). -/
def splitNlChars : List Char → List (List Char)
  | [] => [[]]
  | c :: rest =>
    if c = '\n' then [] :: splitNlChars rest
    else
      match splitNlChars rest with
      | [] => [[c]]
      | h :: t => (c :: h) :: t

/-- Rejoin character-list parts with newline separators (inverse direction of
`splitNlChars`). -/
def joinNlChars : List (List Char) → List Char
  | [] => []
  | [x] => x
  | x :: rest => x ++ '\n' :: joinNlChars rest

/-- Python `s.split(chr(10))` on strings. -/
def pySplitNl (s : String) : List String :=
  (splitNlChars s.toList).map String.mk

/-- Python `sep.join(xs)`. -/
def pyJoin (sep : String) : List String → String
  | [] => ""
  | [x] => x
  | x :: rest => x ++ sep ++ pyJoin sep rest

/-- Python `s.rsplit(chr(10), 1)` for a string known to contain a newline:
everything before the last newline, and everything after it. -/
def rsplitNl (s : String) : String × String :=
  let parts := splitNlChars s.toList
  (String.mk (joinNlChars parts.dropLast), String.mk (parts.getLastD []))

/-- Python `chr(10) in s`. -/
def hasNl (s : String) : Bool := s.toList.any (fun c => c = '\n')

/-- Outcome of driving the `_recvlines` generator to completion. -/
inductive RecvOut where
  | ok (lines : List String) (consumed : Nat)
  | transportErr (consumed : Nat)
  | starved
deriving DecidableEq, Repr

/-- The `_recvlines` loop.  `n` counts lines yielded so far, `buf` is the
`data` buffer of partial trailing text, `consumed` counts `recv` calls made.
Faithful to the source: a chunk containing no newline is neither buffered nor
counted — the `if chr(10) in s` guard simply skips it, discarding its bytes.
`starved` marks the case where the model's chunk stream is exhausted while
the loop still wants lines (the real code would block in `recv`). -/
def recvlinesGo (num : Nat) :
    List (Option String) → Nat → List String → Nat → RecvOut
  | chunks, n, buf, consumed =>
    if num ≤ n then .ok [] consumed
    else
      match chunks with
      | [] => .starved
      | none :: _ => .transportErr (consumed + 1)
      | some s :: rest =>
        if hasNl s then
          let p := rsplitNl s
          let lines := pySplitNl (String.join (buf ++ [p.1]))
          match recvlinesGo num rest (n + lines.length) [p.2] (consumed + 1) with
          | .ok more c => .ok (lines ++ more) c
          | other => other
        else
          recvlinesGo num rest n buf (consumed + 1)

/-- `VWSocket._recvlines(num)` driven over a chunk stream, starting from the
empty buffer. -/
def vwsocket_recvlines (num : Nat) (chunks : List (Option String)) : RecvOut :=
  recvlinesGo num chunks 0 [] 0

/-- Result of one `connect()` attempt: whether it succeeded, and the number
of connection attempts made (always one). -/
def vwsocket_connect (connectOk : Bool) : Bool × Nat := (connectOk, 1)

/-- Result of `reconnect()`: how many `connect()` attempts were made and
whether the fatal-failure callback ran. -/
structure ReconnectResult where
  connectAttempts : Nat
  fatalCalled : Bool
deriving DecidableEq, Repr

/-- `VWSocket.reconnect`: one retry of `connect()`; on failure, invoke the
registered fatal-failure callback. -/
def vwsocket_reconnect (connectOk : Bool) : ReconnectResult :=
  let c := vwsocket_connect connectOk
  { connectAttempts := c.2, fatalCalled := !c.1 }

/-- Outcome of a `send_commands` call. -/
inductive SCOut where
  /-- Wrote the batch and returned `None` without reading. -/
  | noRead (sent : String)
  /-- Wrote the batch and returned the collected response lines, having
  consumed `consumed` chunks from the socket. -/
  | lines (sent : String) (ls : List String) (consumed : Nat)
  /-- A `socket.error` was re-raised to the caller after `reconnect()` made
  `reconnects` connection attempts and possibly ran the fatal callback. -/
  | raised (reconnects : Nat) (fatalCalled : Bool)
  /-- Model artifact: chunk stream exhausted (the real code would block). -/
  | starved
deriving DecidableEq, Repr

/-- `VWSocket.send_commands(commands, num_responses)`.  `sendOk` is whether
`sendall` succeeds, `chunks` is the receive stream, `connectOk` the outcome
of a reconnection attempt.  Faithful to the source: the read count passed to
`_recvlines` is `len(commands)`, not `num_responses`; `num_responses` (which
defaults to `len(commands)`) only decides whether any read happens at all. -/
def send_commands (commands : List String) (numResponses : Option Nat)
    (sendOk : Bool) (chunks : List (Option String)) (connectOk : Bool) : SCOut :=
  let nr := numResponses.getD commands.length
  let msg := pyJoin "\n" commands ++ "\n"
  if sendOk then
    if nr ≠ 0 then
      match vwsocket_recvlines commands.length chunks with
      | .ok ls c => .lines msg ls c
      | .transportErr _ =>
        let r := vwsocket_reconnect connectOk
        .raised r.connectAttempts r.fatalCalled
      | .starved => .starved
    else
      .noRead msg
  else
    let r := vwsocket_reconnect connectOk
    .raised r.connectAttempts r.fatalCalled

/-! ## Worker: `VW` -/

/-- Python `v.replace(chr(34), backslash-quote)` on the character list. -/
def escQChars : List Char → List Char
  | [] => []
  | c :: rest => if c = '"' then '\\' :: '"' :: escQChars rest else c :: escQChars rest

/-- Escape embedded double quotes in a string option value. -/
def escapeQuotes (s : String) : String := String.mk (escQChars s.toList)

/-- `VW.NUM_CHILD_PROCESSES`. -/
def NUM_CHILD_PROCESSES : Nat := 8

/-- `VW.make_options`: render the option dictionary (in iteration order) as
command-line fragments.  Booleans: `True` becomes a bare flag, `False` is
dropped; strings are quoted with embedded quotes escaped; other scalars are
rendered as `--key value`. -/
def make_options : List (String × PyVal) → List String
  | [] => []
  | (k, v) :: rest =>
    (match v with
     | .bool b => if b then ["--" ++ k] else []
     | .str s => ["--" ++ k ++ " \"" ++ escapeQuotes s ++ "\""]
     | .int n => ["--" ++ k ++ " " ++ toString n]) ++ make_options rest

/-- The full `opts` list built by `VW.load_vw`: user options, then the
model-file option chosen by the existence of the model snapshot, then the
fixed infrastructure flags. -/
def load_vw_opts (options : List (String × PyVal)) (modelExists : Bool)
    (model_fpath : String) (port : Nat) : List String :=
  make_options options
    ++ [if modelExists then "--initial_regressor " ++ model_fpath
        else "--final_regressor " ++ model_fpath]
    ++ ["--no_stdin", "--save_resume", "--quiet",
        "--num_children " ++ toString NUM_CHILD_PROCESSES,
        "--port " ++ toString port]

/-- In-memory state of one `VW` worker handle. -/
structure WorkerH where
  sockOpen : Bool
  procRunning : Bool
  options : List (String × PyVal)
deriving DecidableEq, Repr

/-- `VW.unload`: close the socket and kill the worker process.  It touches
nothing of the worker's data directory apart from the pid file. -/
def vw_unload (w : WorkerH) : WorkerH :=
  { w with sockOpen := false, procRunning := false }

/-! ## WorkerRegistry: `VWAPI` -/

/-- Registry state: the in-memory `self.vws` map (association list in
insertion order) and the set of worker names whose data directory exists on
disk. -/
structure APIState where
  vws : List (String × WorkerH)
  dirs : List String
deriving DecidableEq, Repr

/-- Python `options or VWOPTIONS`: an empty (falsy) or absent mapping is
replaced by the default. -/
def pyDictOr (opt : Option (List (String × PyVal)))
    (dflt : List (String × PyVal)) : List (String × PyVal) :=
  match opt with
  | none => dflt
  | some o => if o.isEmpty then dflt else o

/-- The keys of the option mapping that are not allowed keys, in mapping
order (the source computes this set difference against `VWOPTIONS`). -/
def extraKeys (options : List (String × PyVal)) : List String :=
  (options.map Prod.fst).filter (fun k => !(VWOPTIONS.map Prod.fst).contains k)

/-- `VWAPI._check_options`: reject any option key outside the allowed set,
naming the unexpected keys in the error. -/
def _check_options (options : List (String × PyVal)) : Except String Unit :=
  if (extraKeys options).isEmpty then .ok ()
  else .error ("Unexpected options: " ++ pyJoin "," (extraKeys options))

deriving instance DecidableEq for Except

/-- Result of a registry operation that may raise: the registry state after
the call, and either a normal return or the raised message. -/
structure RegOut where
  st : APIState
  result : Except String Unit
deriving DecidableEq, Repr

/-- `VWAPI.create(name, options)`: default the falsy mapping, validate the
option keys, fail if the name is loaded or its directory exists, otherwise
make the directory and construct the worker (which stores the options it was
given). -/
def VWAPI_create (st : APIState) (name : String)
    (optionsArg : Option (List (String × PyVal))) : RegOut :=
  let options := pyDictOr optionsArg VWOPTIONS
  match _check_options options with
  | .error m => { st := st, result := .error m }
  | .ok _ =>
    if st.vws.any (fun p => p.1 = name) || st.dirs.contains name then
      { st := st, result := .error ("vw model \"" ++ name ++ "\" exists already") }
    else
      { st := { vws := st.vws ++ [(name, ⟨true, true, options⟩)],
                dirs := st.dirs ++ [name] },
        result := .ok () }

/-- Result of `VWAPI.unload`: the registry state afterwards and whether the
worker's own `unload()` ran. -/
structure UnloadOut where
  st : APIState
  workerUnloadCalled : Bool
deriving DecidableEq, Repr

/-- `VWAPI.unload(name)`: return immediately when the name is not loaded;
otherwise call the worker's `unload()`.  Faithful to the source: the entry is
never deleted from `self.vws` (there is no `del`), and nothing on disk is
removed. -/
def VWAPI_unload (st : APIState) (name : String) : UnloadOut :=
  match List.lookup name st.vws with
  | none => { st := st, workerUnloadCalled := false }
  | some _ =>
    { st := { st with
        vws := st.vws.map (fun p => if p.1 = name then (p.1, vw_unload p.2) else p) },
      workerUnloadCalled := true }

/-- `VWAPI._check_item_format`: a line is well formed when it embeds neither
a newline nor a carriage return. -/
def _check_item_format (item : String) : Bool :=
  !(item.toList.any (fun c => c = '\n') || item.toList.any (fun c => c = '\r'))

/-- The indexed loop of `VWAPI._check_items`. -/
def checkItemsGo : List String → Nat → Except String Unit
  | [], _ => .ok ()
  | it :: rest, i =>
    if _check_item_format it then checkItemsGo rest (i + 1)
    else .error ("Bad format for item at index " ++ toString i)

/-- `VWAPI._check_items`: raise on the first badly formatted item, naming
its index. -/
def _check_items (items : List String) : Except String Unit :=
  checkItemsGo items 0

/-- Outcome of the body of `VWAPI.train` / `VWAPI.predict` (the method the
`ensurevw` dispatcher invokes on a resolved worker). -/
inductive TrainOut where
  /-- Validation failed; nothing was sent on the socket. -/
  | validationError (msg : String)
  /-- Validation passed and the batch went through `send_commands`. -/
  | sent (r : SCOut)
deriving DecidableEq, Repr

/-- Body of `VWAPI.train`: validate the example lines, then forward them to
`VW.train`, which is `send_commands(examples)` with the default response
count. -/
def VWAPI_train (examples : List String) (chunks : List (Option String))
    (connectOk : Bool) : TrainOut :=
  match _check_items examples with
  | .error m => .validationError m
  | .ok _ => .sent (send_commands examples none true chunks connectOk)

/-- Body of `VWAPI.predict`: identical wire behavior to `train`. -/
def VWAPI_predict (items : List String) (chunks : List (Option String))
    (connectOk : Bool) : TrainOut :=
  match _check_items items with
  | .error m => .validationError m
  | .ok _ => .sent (send_commands items none true chunks connectOk)

/-! ## Name resolution inside the `ensurevw` caller

`ensurevw` is declared `@decorator` with caller signature
`(fn, vw, *args, **kwargs)`, so on a call `api.train(name, ...)` the
parameter `vw` is bound to the `VWAPI` instance and the body's `self` is a
free name.  Python resolves a free name against the function's locals, the
module globals and the builtins; the lists below enumerate the names bound
in those scopes for `ensurevw` in `vwserver/vwserver.py`. -/

/-- The local names of the `ensurevw` caller: its parameters. -/
def ensurevwLocalNames : List String := ["fn", "vw", "args", "kwargs"]

/-- The module-level names of `vwserver/vwserver.py` (imports, constants,
functions and classes). -/
def vwserverModuleNames : List String :=
  ["monkey", "os", "sys", "time", "shlex", "shutil", "subprocess", "signal",
   "socket", "threading", "copy", "psutil", "tornado", "websocket",
   "decorator", "RPCServer", "RPCClient", "VWWRAPPER", "VWOPTIONS",
   "get_vwdaemon_pid", "is_process_running", "get_free_port", "sleep_until",
   "VWSocket", "VW", "ensurevw", "VWAPI", "VWClient", "WSVWHandler",
   "VWServer"]

/-- Whether a free name occurring in the body of `ensurevw` resolves (the
Python builtins bind no name called `self`, so they are not listed). -/
def ensurevwResolves (x : String) : Bool :=
  ensurevwLocalNames.contains x || vwserverModuleNames.contains x

/-- Rendering of a single option as the specification words it: a boolean
`True` is a bare flag, a boolean `False` is omitted, a string is quoted with
embedded double quotes escaped, and any other scalar becomes `--key value`.
Declared separately from `make_options` (which is translated from the
source loop) so that the two can be compared. -/
def renderOptionSpec (kv : String × PyVal) : Option String :=
  match kv.2 with
  | .bool true => some ("--" ++ kv.1)
  | .bool false => none
  | .str s => some ("--" ++ kv.1 ++ " \"" ++ escapeQuotes s ++ "\"")
  | .int n => some ("--" ++ kv.1 ++ " " ++ toString n)

/-! ## Helper lemmas -/

/-- Characterization of the `sleep_until` loop: it runs for
`sleepCutoff timeout sched acc` iterations, sleeps the scheduled duration at
exactly the iterations whose predicate evaluation was false, and evaluates
the predicate once per iteration. -/
theorem sleep_until_loop_spec (fn : Nat → Bool) (timeout : Nat) :
    ∀ (sched : List Nat) (e acc : Nat),
      sleep_until_loop fn timeout sched e acc
        = ((((sched.take (sleepCutoff timeout sched acc)).enumFrom e).filter
              (fun p => fn p.1 = false)).map Prod.snd,
           e + sleepCutoff timeout sched acc) := by
  intro sched
  induction sched with
  | nil =>
    intro e acc
    simp [sleep_until_loop, sleepCutoff]
  | cons t rest ih =>
    intro e acc
    by_cases h : timeout < acc + t
    · rw [sleep_until_loop, sleepCutoff]
      simp only [h, if_true, List.take, List.enumFrom, List.filter_cons]
      cases hfe : fn e <;> simp [hfe, List.take]
    · rw [sleep_until_loop, sleepCutoff]
      simp only [h, if_false, ih (e + 1) (acc + t), List.take_succ_cons, List.enumFrom,
        List.filter_cons]
      cases hfe : fn e <;> simp [hfe] <;> omega

/-- The loop never runs more iterations than the schedule has entries. -/
theorem sleepCutoff_le_length (timeout : Nat) :
    ∀ (sched : List Nat) (acc : Nat), sleepCutoff timeout sched acc ≤ sched.length := by
  intro sched
  induction sched with
  | nil => intro acc; simp [sleepCutoff]
  | cons t rest ih =>
    intro acc
    rw [sleepCutoff]
    by_cases h : timeout < acc + t <;> simp [h]
    exact ih (acc + t)

/-- When the loop stops before exhausting the schedule, the accumulated
scheduled time has exceeded the timeout. -/
theorem sleepCutoff_exceeds (timeout : Nat) :
    ∀ (sched : List Nat) (acc : Nat),
      sleepCutoff timeout sched acc = sched.length ∨
        timeout < acc + ((sched.take (sleepCutoff timeout sched acc)).sum) := by
  intro sched
  induction sched with
  | nil => intro acc; left; simp [sleepCutoff]
  | cons t rest ih =>
    intro acc
    rw [sleepCutoff]
    by_cases h : timeout < acc + t
    · right
      simp only [h, if_true, List.take_succ_cons, List.take_zero, List.sum_cons, List.sum_nil]
      omega
    · rcases ih (acc + t) with h1 | h1
      · left; simp [h, h1]
      · right
        simp only [h, if_false, List.take_succ_cons, List.sum_cons]
        omega

/-- Before the stopping point, the accumulated scheduled time stays within
the timeout. -/
theorem sleepCutoff_min (timeout : Nat) :
    ∀ (sched : List Nat) (acc : Nat), acc ≤ timeout →
      ∀ m, m < sleepCutoff timeout sched acc → acc + (sched.take m).sum ≤ timeout := by
  intro sched
  induction sched with
  | nil => intro acc _ m hm; simp [sleepCutoff] at hm
  | cons t rest ih =>
    intro acc hacc m hm
    rw [sleepCutoff] at hm
    by_cases h : timeout < acc + t
    · simp [h] at hm
      have hm0 : m = 0 := by omega
      subst hm0
      simpa using hacc
    · simp only [h, if_false] at hm
      match m with
      | 0 => simpa using hacc
      | m' + 1 =>
        have := ih (acc + t) (by omega) m' (by omega)
        simp only [List.take_succ_cons, List.sum_cons]
        omega

/-- When `_recvlines` completes normally it has yielded at least the
requested number of lines (it can overshoot when one chunk carries several
complete lines). -/
theorem recvlinesGo_ok_length (num : Nat) :
    ∀ (chunks : List (Option String)) (n : Nat) (buf : List String) (consumed : Nat)
      (ls : List String) (c : Nat),
      recvlinesGo num chunks n buf consumed = .ok ls c → num ≤ n + ls.length := by
  intro chunks
  induction chunks with
  | nil =>
    intro n buf consumed ls c h
    rw [recvlinesGo.eq_def] at h
    by_cases hn : num ≤ n
    · simp only [hn, if_true, RecvOut.ok.injEq] at h
      omega
    · simp [hn] at h
  | cons chunk rest ih =>
    intro n buf consumed ls c h
    rw [recvlinesGo.eq_def] at h
    by_cases hn : num ≤ n
    · simp only [hn, if_true, RecvOut.ok.injEq] at h
      omega
    · simp only [hn, if_false] at h
      rcases chunk with _ | s
      · simp at h
      · by_cases hs : hasNl s = true
        · simp only [hs, if_true] at h
          cases hrec : recvlinesGo num rest
              (n + (pySplitNl (String.join (buf ++ [(rsplitNl s).1]))).length)
              [(rsplitNl s).2] (consumed + 1) with
          | ok more c2 =>
            rw [hrec] at h
            simp only [RecvOut.ok.injEq] at h
            have := ih _ _ _ _ _ hrec
            rcases h with ⟨h1, h2⟩
            subst h1
            simp only [List.length_append]
            omega
          | transportErr c2 => rw [hrec] at h; simp at h
          | starved => rw [hrec] at h; simp at h
        · simp only [hs, if_false] at h
          exact ih _ _ _ _ _ h

/-- The indexed validation loop reports the first offending index, offset by
its starting index. -/
theorem checkItemsGo_spec :
    ∀ (items : List String) (i : Nat),
      checkItemsGo items i
        = match items.findIdx? (fun it => ! _check_item_format it) with
          | some j => .error ("Bad format for item at index " ++ toString (i + j))
          | none => .ok () := by
  intro items
  induction items with
  | nil => intro i; simp [checkItemsGo]
  | cons it rest ih =>
    intro i
    by_cases hf : _check_item_format it
    · simp [checkItemsGo, hf, List.findIdx?_cons, ih (i + 1)]
      cases hrec : rest.findIdx? (fun it => ! _check_item_format it) with
      | some j => simp [Nat.add_assoc, Nat.add_comm 1 j]
      | none => simp
    · simp only [Bool.not_eq_true] at hf
      simp [checkItemsGo, hf, List.findIdx?_cons]

/-! ## Claim theorems -/

/-- Claim C1 (code bug).  The per-worker dispatcher `ensurevw` is declared
through the `decorator` library with caller signature `(fn, vw, *args)`, so
on any call the parameter `vw` is bound to the registry instance and the
name `self` used by the body's very first statement is free; it resolves
against neither the caller's locals nor the module globals (nor the
builtins), so every `train`/`predict`/`save`/`destroy` call raises a
`NameError` before any lazy load or not-found check can happen. -/
theorem ensurevw_self_not_resolvable : ensurevwResolves "self" = false := by decide

/-- Claim C2 (code bug).  Evaluating `VWAPI.unload` on a registry with
worker `m` loaded: the worker's own `unload()` runs and the on-disk
directory list is untouched, but the entry for `m` is still present in the
in-memory map afterwards (the source has no `del self.vws[...]`), and the
no-op branch for an unloaded name leaves the state unchanged. -/
theorem unload_keeps_map_entry :
    (VWAPI_unload ⟨[("m", ⟨true, true, VWOPTIONS⟩)], ["m"]⟩ "m").workerUnloadCalled = true ∧
    List.lookup "m" (VWAPI_unload ⟨[("m", ⟨true, true, VWOPTIONS⟩)], ["m"]⟩ "m").st.vws
      = some ⟨false, false, VWOPTIONS⟩ ∧
    (VWAPI_unload ⟨[("m", ⟨true, true, VWOPTIONS⟩)], ["m"]⟩ "m").st.dirs = ["m"] ∧
    VWAPI_unload ⟨[], ["m"]⟩ "m" = ⟨⟨[], ["m"]⟩, false⟩ := by decide

/-- Claim C3 (counterexample).  `send_commands` with two commands and
`expectedResponseCount = 1` reads and returns two response lines, not one:
the read count passed to `_recvlines` is `len(commands)`. -/
theorem send_commands_count_cex :
    send_commands ["a", "b"] (some 1) true [some "x\n", some "y\n"] true
      = .lines "a\nb\n" ["x", "y"] 2 ∧ ¬ (["x", "y"] : List String).length = 1 :=
  ⟨by decide, by decide⟩

/-- Claim C3 (amended).  With a nonzero `expectedResponseCount` the call
reads responses, but the number of lines is governed by `len(commands)`
(any nonzero count gives the same result, and at least `len(commands)`
lines come back); with a zero count the call returns immediately after the
write without reading. -/
theorem send_commands_response_count (commands : List String)
    (chunks : List (Option String)) (connectOk : Bool) :
    (∀ nr1 nr2 : Nat, nr1 ≠ 0 → nr2 ≠ 0 →
      send_commands commands (some nr1) true chunks connectOk
        = send_commands commands (some nr2) true chunks connectOk) ∧
    (∀ nr : Nat, nr ≠ 0 → ∀ sent ls c,
      send_commands commands (some nr) true chunks connectOk = .lines sent ls c →
      commands.length ≤ ls.length) ∧
    send_commands commands (some 0) true chunks connectOk
      = .noRead (pyJoin "\n" commands ++ "\n") := by
  refine ⟨?_, ?_, ?_⟩
  · intro nr1 nr2 h1 h2
    simp [send_commands, h1, h2]
  · intro nr hnr sent ls c h
    simp only [send_commands, Option.getD_some, hnr, if_true, ne_eq,
      not_false_iff, if_pos] at h
    cases hrec : vwsocket_recvlines commands.length chunks with
    | ok ls2 c2 =>
      rw [hrec] at h
      simp only [SCOut.lines.injEq] at h
      have := recvlinesGo_ok_length commands.length chunks 0 [] 0 ls2 c2 hrec
      rcases h with ⟨-, h2, -⟩
      subst h2
      omega
    | transportErr c2 => rw [hrec] at h; simp at h
    | starved => rw [hrec] at h; simp at h
  · rfl

/-- Claim C3 witness: the amended theorem applied at a concrete call. -/
theorem send_commands_response_count_witness :
    send_commands ["a"] (some 1) true [some "x\n"] true
      = send_commands ["a"] (some 2) true [some "x\n"] true :=
  (send_commands_response_count ["a"] [some "x\n"] true).1 1 2 (by decide) (by decide)

/-- Claim C4 (code bug).  A received chunk containing no newline is
discarded by `_recvlines` rather than buffered: with chunks `ab` then
`cd` + newline, the yielded line is `cd`, so the bytes `ab` are lost (a
faithful buffer would yield `abcd`). -/
theorem recv_discards_newline_free_chunk :
    send_commands ["a"] none true [some "ab", some "cd\n"] true
      = .lines "a\n" ["cd"] 2 := by decide

/-- Claim C5.  Whenever a transport error surfaces from `send_commands`,
exactly one reconnection attempt was made, the fatal callback ran exactly
when that retry failed, and the original error is re-raised to the caller
in all cases: every `raised` outcome carries one connect attempt and
`fatalCalled = !connectOk`; a send failure raises; a receive failure with a
pending read raises. -/
theorem send_commands_error_handling (commands : List String) (numResponses : Option Nat)
    (sendOk : Bool) (chunks : List (Option String)) (connectOk : Bool) :
    (∀ r f, send_commands commands numResponses sendOk chunks connectOk = .raised r f →
      r = 1 ∧ f = !connectOk) ∧
    (sendOk = false →
      send_commands commands numResponses sendOk chunks connectOk
        = .raised 1 !connectOk) ∧
    (∀ c, sendOk = true → numResponses.getD commands.length ≠ 0 →
      vwsocket_recvlines commands.length chunks = .transportErr c →
      send_commands commands numResponses sendOk chunks connectOk
        = .raised 1 !connectOk) := by
  refine ⟨?_, ?_, ?_⟩
  · intro r f h
    cases sendOk with
    | false =>
      cases connectOk <;>
        simp [send_commands, vwsocket_reconnect, vwsocket_connect] at h <;>
        simp [h.1, h.2]
    | true =>
      by_cases hnr : numResponses.getD commands.length = 0
      · simp [send_commands, hnr] at h
      · cases hrec : vwsocket_recvlines commands.length chunks with
        | ok ls2 c2 => simp [send_commands, hnr, hrec] at h
        | transportErr c2 =>
          cases connectOk <;>
            simp [send_commands, hnr, hrec, vwsocket_reconnect, vwsocket_connect] at h <;>
            simp [h.1, h.2]
        | starved => simp [send_commands, hnr, hrec] at h
  · intro h
    subst h
    cases connectOk <;> simp [send_commands, vwsocket_reconnect, vwsocket_connect]
  · intro c hs hnr hrec
    subst hs
    cases connectOk <;>
      simp [send_commands, hnr, hrec, vwsocket_reconnect, vwsocket_connect]

/-- Claim C5 witness: a failing send on a closed connection raises after one
failed reconnect with the fatal callback invoked. -/
theorem send_commands_error_handling_witness :
    send_commands ["a"] none false [] false = .raised 1 !false :=
  (send_commands_error_handling ["a"] none false [] false).2.1 rfl

/-- Claim C6.  A `train` or `predict` batch containing a line with an
embedded newline or carriage return fails with a validation error naming
the first offending index, and nothing reaches `send_commands`; a batch
with no such line passes validation and is sent; and a line with neither
character is never rejected by the format check. -/
theorem train_predict_validation (examples : List String)
    (chunks : List (Option String)) (connectOk : Bool) :
    (∀ i, examples.findIdx? (fun it => ! _check_item_format it) = some i →
      VWAPI_train examples chunks connectOk
        = .validationError ("Bad format for item at index " ++ toString i) ∧
      VWAPI_predict examples chunks connectOk
        = .validationError ("Bad format for item at index " ++ toString i)) ∧
    (examples.findIdx? (fun it => ! _check_item_format it) = none →
      VWAPI_train examples chunks connectOk
        = .sent (send_commands examples none true chunks connectOk) ∧
      VWAPI_predict examples chunks connectOk
        = .sent (send_commands examples none true chunks connectOk)) ∧
    (∀ it, it.toList.any (fun c => c = '\n') = false →
      it.toList.any (fun c => c = '\r') = false →
      _check_item_format it = true) := by
  refine ⟨?_, ?_, ?_⟩
  · intro i hi
    constructor <;>
      simp [VWAPI_train, VWAPI_predict, _check_items, checkItemsGo_spec, hi]
  · intro hn
    constructor <;>
      simp [VWAPI_train, VWAPI_predict, _check_items, checkItemsGo_spec, hn]
  · intro it h1 h2
    simp only [_check_item_format, Bool.not_eq_true', Bool.or_eq_false_iff]
    exact ⟨h1, h2⟩

/-- Claim C6 witness: a batch whose first line embeds a newline is rejected
at index 0 and nothing is sent. -/
theorem train_predict_validation_witness :
    VWAPI_train ["bad\nline"] [] true
      = .validationError ("Bad format for item at index " ++ toString 0) :=
  ((train_predict_validation ["bad\nline"] [] true).1 0 (by decide)).1

/-- Claim C7.  `create` with an options mapping containing a key outside the
allowed set fails with a validation error naming the unexpected keys, and
the registry state — both the in-memory map and the set of on-disk
directories — is unchanged. -/
theorem create_rejects_unknown_options (st : APIState) (name : String)
    (opts : List (String × PyVal)) (h : extraKeys opts ≠ []) :
    VWAPI_create st name (some opts)
      = { st := st,
          result := .error ("Unexpected options: " ++ pyJoin "," (extraKeys opts)) } := by
  have hne : opts.isEmpty = false := by
    cases opts with
    | nil => simp [extraKeys] at h
    | cons a rest => simp
  have hek : (extraKeys opts).isEmpty = false := by
    cases hv : extraKeys opts with
    | nil => exact absurd hv h
    | cons a rest => simp
  simp [VWAPI_create, pyDictOr, hne, _check_options, hek]

/-- Claim C7 witness: creating with an unknown option key on an empty
registry fails and changes nothing. -/
theorem create_rejects_unknown_options_witness :
    VWAPI_create ⟨[], []⟩ "m" (some [("bogus", PyVal.int 1)])
      = { st := ⟨[], []⟩,
          result := .error ("Unexpected options: "
            ++ pyJoin "," (extraKeys [("bogus", PyVal.int 1)])) } :=
  create_rejects_unknown_options ⟨[], []⟩ "m" [("bogus", PyVal.int 1)] (by decide)

/-- Claim C8.  The launch command line renders options exactly as specified:
`make_options` equals the per-option rendering rule mapped over the options,
and the full option list appends the initial-regressor flag when the model
snapshot exists and the final-regressor flag (at the same path) when it does
not, before the fixed infrastructure flags. -/
theorem make_options_rendering (options : List (String × PyVal))
    (model_fpath : String) (port : Nat) :
    make_options options = options.filterMap renderOptionSpec ∧
    load_vw_opts options true model_fpath port
      = options.filterMap renderOptionSpec
        ++ ["--initial_regressor " ++ model_fpath]
        ++ ["--no_stdin", "--save_resume", "--quiet",
            "--num_children " ++ toString NUM_CHILD_PROCESSES,
            "--port " ++ toString port] ∧
    load_vw_opts options false model_fpath port
      = options.filterMap renderOptionSpec
        ++ ["--final_regressor " ++ model_fpath]
        ++ ["--no_stdin", "--save_resume", "--quiet",
            "--num_children " ++ toString NUM_CHILD_PROCESSES,
            "--port " ++ toString port] := by
  have hmk : make_options options = options.filterMap renderOptionSpec := by
    induction options with
    | nil => simp [make_options]
    | cons kv rest ih =>
      obtain ⟨k, v⟩ := kv
      cases v with
      | bool b => cases b <;> simp [make_options, renderOptionSpec, ih]
      | str s => simp [make_options, renderOptionSpec, ih]
      | int n => simp [make_options, renderOptionSpec, ih]
  refine ⟨hmk, ?_, ?_⟩ <;> simp [load_vw_opts, hmk]

/-- Claim C9.  For every predicate and timeout, `sleep_until` runs some
prefix of the fixed backoff schedule (in tenths of a second): it sleeps the
scheduled durations at exactly the iterations whose predicate evaluation
was false, stops the schedule at the first duration whose accumulated
elapsed time exceeds the timeout (running the whole schedule otherwise),
always evaluates the predicate one final time after the loop, and returns
that final result.  Being a total Lean function, it raises nothing. -/
theorem sleep_until_backoff (fn : Nat → Bool) (timeout : Nat) :
    ∃ k, k ≤ backoffSchedule.length ∧
      (k = backoffSchedule.length ∨ timeout < ((backoffSchedule.take k).sum)) ∧
      (∀ m, m < k → ((backoffSchedule.take m).sum) ≤ timeout) ∧
      (sleep_until fn timeout).sleeps
        = (((backoffSchedule.take k).enumFrom 0).filter
            (fun p => fn p.1 = false)).map Prod.snd ∧
      (sleep_until fn timeout).evals = k + 1 ∧
      (sleep_until fn timeout).result = fn k := by
  refine ⟨sleepCutoff timeout backoffSchedule 0, sleepCutoff_le_length timeout _ 0,
    ?_, ?_, ?_, ?_, ?_⟩
  · simpa using sleepCutoff_exceeds timeout backoffSchedule 0
  · intro m hm
    simpa using sleepCutoff_min timeout backoffSchedule 0 (Nat.zero_le _) m hm
  · simp [sleep_until, sleep_until_loop_spec fn timeout backoffSchedule 0 0]
  · simp [sleep_until, sleep_until_loop_spec fn timeout backoffSchedule 0 0]
  · simp [sleep_until, sleep_until_loop_spec fn timeout backoffSchedule 0 0]

/-- Claim C9 witness: the theorem applied to the always-false predicate with
the default 25-second timeout. -/
theorem sleep_until_backoff_witness :
    ∃ k, k ≤ backoffSchedule.length ∧
      (k = backoffSchedule.length ∨ 250 < ((backoffSchedule.take k).sum)) ∧
      (∀ m, m < k → ((backoffSchedule.take m).sum) ≤ 250) ∧
      (sleep_until (fun _ => false) 250).sleeps
        = (((backoffSchedule.take k).enumFrom 0).filter
            (fun p => (fun _ => false) p.1 = false)).map Prod.snd ∧
      (sleep_until (fun _ => false) 250).evals = k + 1 ∧
      (sleep_until (fun _ => false) 250).result = (fun _ => false) k :=
  sleep_until_backoff (fun _ => false) 250

/-- Claim C10.  `create` with an empty options mapping behaves exactly like
`create` with no options argument, and on success the stored worker carries
the full default option set. -/
theorem create_empty_options_defaults (st : APIState) (name : String) :
    VWAPI_create st name (some []) = VWAPI_create st name none ∧
    ((VWAPI_create st name (some [])).result = .ok () →
      (VWAPI_create st name (some [])).st.vws
        = st.vws ++ [(name, ⟨true, true, VWOPTIONS⟩)]) := by
  have hd : _check_options VWOPTIONS = .ok () := by decide
  constructor
  · simp [VWAPI_create, pyDictOr]
  · intro h
    by_cases hex : (st.vws.any fun p => p.1 = name) || st.dirs.contains name
    · simp only [VWAPI_create, pyDictOr, List.isEmpty_nil, if_true, hd] at h
      rw [if_pos hex] at h
      simp at h
    · simp only [VWAPI_create, pyDictOr, List.isEmpty_nil, if_true, hd]
      rw [if_neg hex]

/-- Claim C10 witness: creating `m` with an empty mapping on an empty
registry stores the default options. -/
theorem create_empty_options_defaults_witness :
    (VWAPI_create ⟨[], []⟩ "m" (some [])).st.vws
      = ([] : List (String × WorkerH)) ++ [("m", ⟨true, true, VWOPTIONS⟩)] :=
  (create_empty_options_defaults ⟨[], []⟩ "m").2 (by decide)
